import Mathlib

/-!
Verification of the stream lifecycle manager declared in
src/include/CL/sycl/detail/stream.hpp of hipSYCL (SYCU).

The header declares class stream_manager with a default constructor
(default-stream view), a device-bound constructor, a destructor that
"if the managed stream is not the default stream, synchronizes and
destroys the stream", a get_stream accessor, a static default_stream
accessor returning a stream_ptr (shared_ptr_class<stream_manager>), and
a single private member hipStream_t _stream.

The bodies of these member functions are not part of the sources, so
the operation bodies below are modelled from the specification, against
a mock native runtime that records every native call (allocate-stream,
synchronize, destroy-stream) in an ordered trace, together with an
out-of-band diagnostic channel for synchronization faults.
-/

namespace StreamSpec

/-- The reserved native-handle value denoting the default stream
(the null stream of the native runtime). -/
def default_sentinel : Nat := 0

/-- A call into the native runtime, as recorded by the mock runtime
layer: allocate-stream on a device yielding a handle, synchronize on a
handle, destroy-stream on a handle. -/
inductive Event where
  | allocate : Nat → Nat → Event
  | synchronize : Nat → Event
  | destroyStream : Nat → Event
deriving DecidableEq, Repr

/-- State of the mock native runtime: a fresh-handle counter (allocated
handles are strictly positive, so they never collide with the default
sentinel), the ordered trace of native calls, and the out-of-band
diagnostic channel listing handles whose synchronize reported a fault. -/
structure RTState where
  nextHandle : Nat
  trace : List Event
  diagnostics : List Nat
deriving DecidableEq, Repr

/-- Behaviour of the mock native runtime: which devices fail stream
allocation, and which handles report a runtime fault on synchronize. -/
structure NativeCfg where
  allocFails : Nat → Bool
  syncFault : Nat → Bool

/-- The initial state of the mock native runtime: no calls recorded. -/
def initState : RTState := ⟨0, [], []⟩

/-- The stream_manager class of stream.hpp: it holds a single native
stream handle `_stream` (hipStream_t), fixed at construction. -/
structure stream_manager where
  _stream : Nat
deriving DecidableEq, Repr

/-- Modelled from the spec: shared_ptr_class<stream_manager> (the
stream_ptr alias of stream.hpp, whose reference-counting implementation
is not under the sources): a manager together with an atomic owner
count. -/
structure stream_ptr where
  refcount : Nat
  manager : stream_manager
deriving DecidableEq, Repr

/-- Error kinds of the spec: failed native stream allocation. -/
inductive StreamError where
  | ResourceCreationError
deriving DecidableEq, Repr

/-- Modelled from the spec: the native runtime primitive
allocate-stream(device) -> handle (a black box to this subsystem).
It either fails, leaving the runtime untouched, or records the
allocation and yields a fresh non-sentinel handle. -/
def native_allocate (cfg : NativeCfg) (d : Nat) (s : RTState) :
    Option Nat × RTState :=
  if cfg.allocFails d then (none, s)
  else
    let h := s.nextHandle + 1
    (some h, { s with nextHandle := h, trace := s.trace ++ [Event.allocate d h] })

/-- Modelled from the spec: the native runtime primitive
synchronize(handle) -> status. It blocks until enqueued work completes;
if the runtime reports a fault for this handle, the fault is routed to
the out-of-band diagnostic channel and never propagated as an error. -/
def native_synchronize (cfg : NativeCfg) (h : Nat) (s : RTState) : RTState :=
  { s with
    trace := s.trace ++ [Event.synchronize h],
    diagnostics :=
      if cfg.syncFault h then s.diagnostics ++ [h] else s.diagnostics }

/-- Modelled from the spec: the native runtime primitive
destroy-stream(handle), releasing the native resource. -/
def native_destroy (h : Nat) (s : RTState) : RTState :=
  { s with trace := s.trace ++ [Event.destroyStream h] }

/-- Derived attribute of the spec data model: `is_default` is true iff
the native handle equals the default sentinel. -/
def is_default (m : stream_manager) : Bool :=
  m._stream == default_sentinel

/-- Modelled from the spec: the body of stream_manager::stream_manager()
is not under the sources. Per the spec (create_default), it produces an
instance whose handle is the default sentinel, performs no native
allocation and never fails. -/
def create_default (s : RTState) : stream_manager × RTState :=
  (⟨default_sentinel⟩, s)

/-- Modelled from the spec: the body of
stream_manager::stream_manager(const device&) is not under the sources.
Per the spec (create_on_device), it allocates a fresh native stream on
the given device, failing with ResourceCreationError (and with no
partial object and no retry) when the native runtime cannot allocate. -/
def create_on_device (cfg : NativeCfg) (d : Nat) (s : RTState) :
    Except StreamError stream_manager × RTState :=
  match native_allocate cfg d s with
  | (none, s1) => (Except.error StreamError.ResourceCreationError, s1)
  | (some h, s1) => (Except.ok ⟨h⟩, s1)

/-- Modelled from the spec: the body of stream_manager::~stream_manager
is not under the sources. Per the header doc comment and the spec: if
the managed stream is not the default stream, synchronize and then
destroy the stream; on the default stream, no runtime action. The
return type RTState (not Except) reflects that no error escapes the
destruction path. -/
def destructor (cfg : NativeCfg) (m : stream_manager) (s : RTState) : RTState :=
  if m._stream = default_sentinel then s
  else native_destroy m._stream (native_synchronize cfg m._stream s)

/-- Modelled from the spec: the body of stream_manager::get_stream is
not under the sources. Per the header ("\return The managed stream")
and the spec (native_handle accessor), it is a side-effect-free,
non-blocking read of the managed handle. -/
def get_stream (m : stream_manager) (s : RTState) : Nat × RTState :=
  (m._stream, s)

/-- Modelled from the spec: the body of stream_manager::default_stream
is not under the sources. Per the header ("A stream manager pointer
using the default stream") and the spec, it returns a fresh shared
handle on a default-stream view, with no native action. -/
def default_stream (s : RTState) : stream_ptr × RTState :=
  let r := create_default s
  (⟨1, r.1⟩, r.2)

/-- Modelled from the spec: release of one shared owner. The atomic
decrement is modelled sequentially; exactly the release that drops the
count from one to zero runs the managed object's destructor. -/
def release (cfg : NativeCfg) (p : stream_ptr) (s : RTState) :
    stream_ptr × RTState :=
  match p with
  | ⟨0, m⟩ => (⟨0, m⟩, s)
  | ⟨1, m⟩ => (⟨0, m⟩, destructor cfg m s)
  | ⟨n + 2, m⟩ => (⟨n + 1, m⟩, s)

/-- k successive releases of owners of a shared stream pointer. -/
def releaseN (cfg : NativeCfg) (k : Nat) (p : stream_ptr) (s : RTState) :
    stream_ptr × RTState :=
  match k with
  | 0 => (p, s)
  | Nat.succ k0 =>
      let r := release cfg p s
      releaseN cfg k0 r.1 r.2

/-- n successive calls of default_stream, collecting the returned
shared handles and threading the runtime state. -/
def callDefaultN : Nat → RTState → List stream_ptr × RTState
  | 0, s => ([], s)
  | Nat.succ n, s =>
      let r := default_stream s
      let rest := callDefaultN n r.2
      (r.1 :: rest.1, rest.2)

/-- The copy constructor of stream_manager: the class declares no copy
operations (none deleted), so the implicit member-wise copy applies and
duplicates the handle. -/
def copy_construct (m : stream_manager) : stream_manager :=
  ⟨m._stream⟩

/-- A mock runtime in which no native call fails. -/
def cfgOk : NativeCfg := ⟨fun _ => false, fun _ => false⟩

/-- A mock runtime in which allocate-stream fails for device 7. -/
def cfgFail7 : NativeCfg := ⟨fun d => d == 7, fun _ => false⟩

/-- A mock runtime in which synchronize reports a fault on handle 5. -/
def cfgFault5 : NativeCfg := ⟨fun _ => false, fun h => h == 5⟩

theorem destructor_trace (cfg : NativeCfg) (m : stream_manager) (s : RTState)
    (hne : m._stream ≠ default_sentinel) :
    (destructor cfg m s).trace
      = s.trace ++ [Event.synchronize m._stream, Event.destroyStream m._stream] := by
  simp [destructor, native_destroy, native_synchronize, hne]

theorem destructor_diagnostics (cfg : NativeCfg) (m : stream_manager) (s : RTState)
    (hne : m._stream ≠ default_sentinel) :
    (destructor cfg m s).diagnostics
      = if cfg.syncFault m._stream then s.diagnostics ++ [m._stream]
        else s.diagnostics := by
  simp [destructor, native_destroy, native_synchronize, hne]

theorem destructor_default_id (cfg : NativeCfg) (m : stream_manager) (s : RTState)
    (hdef : m._stream = default_sentinel) :
    destructor cfg m s = s := by
  simp [destructor, hdef]

theorem releaseN_partial (cfg : NativeCfg) (k j : Nat) (m : stream_manager)
    (s : RTState) :
    releaseN cfg k ⟨k + j + 1, m⟩ s = (⟨j + 1, m⟩, s) := by
  induction k generalizing s with
  | zero => simp [releaseN]
  | succ k0 ih =>
      have hstep : release cfg ⟨k0 + 1 + j + 1, m⟩ s = (⟨k0 + j + 1, m⟩, s) := by
        have hrw : k0 + 1 + j + 1 = (k0 + j) + 2 := by omega
        rw [hrw]
        rfl
      show releaseN cfg k0 (release cfg ⟨k0 + 1 + j + 1, m⟩ s).1
          (release cfg ⟨k0 + 1 + j + 1, m⟩ s).2 = (⟨j + 1, m⟩, s)
      rw [hstep]
      exact ih s

theorem releaseN_full (cfg : NativeCfg) (n : Nat) (m : stream_manager)
    (s : RTState) :
    releaseN cfg (n + 1) ⟨n + 1, m⟩ s = (⟨0, m⟩, destructor cfg m s) := by
  induction n generalizing s with
  | zero => rfl
  | succ n0 ih =>
      show releaseN cfg (n0 + 1) (release cfg ⟨n0 + 2, m⟩ s).1
          (release cfg ⟨n0 + 2, m⟩ s).2 = (⟨0, m⟩, destructor cfg m s)
      have hstep : release cfg ⟨n0 + 2, m⟩ s = (⟨n0 + 1, m⟩, s) := rfl
      rw [hstep]
      exact ih s

theorem callDefaultN_eq (n : Nat) (s : RTState) :
    callDefaultN n s = (List.replicate n ⟨1, ⟨default_sentinel⟩⟩, s) := by
  induction n generalizing s with
  | zero => rfl
  | succ n0 ih =>
      simp [callDefaultN, default_stream, create_default, ih, List.replicate_succ]

/-- C1: destroying a non-default stream_manager first performs the
blocking synchronize on the managed handle and only then issues the
destroy-stream call for that same handle: the mock native trace is
extended by exactly the two events [synchronize h, destroy-stream h],
in that order, so no destroy-stream call precedes the synchronize. -/
theorem destructor_sync_before_destroy (cfg : NativeCfg) (h : Nat) (s : RTState)
    (hne : h ≠ default_sentinel) :
    (destructor cfg ⟨h⟩ s).trace
      = s.trace ++ [Event.synchronize h, Event.destroyStream h] :=
  destructor_trace cfg ⟨h⟩ s hne

theorem destructor_sync_before_destroy_witness :
    (destructor cfgOk ⟨1⟩ initState).trace
      = [Event.synchronize 1, Event.destroyStream 1] := by
  have hmain := destructor_sync_before_destroy cfgOk 1 initState (by decide)
  simpa [initState] using hmain

/-- C2: for a non-default stream shared among N owners, the destruction
path runs exactly once and only at the Nth (last) release: the first
N - 1 releases leave the native runtime untouched, the Nth appends
exactly one synchronize followed by one destroy-stream, and the count of
destroy-stream events for the handle grows by exactly one. -/
theorem shared_last_release_destroys_once (cfg : NativeCfg) (N h : Nat)
    (s : RTState) (hN : 1 ≤ N) (hne : h ≠ default_sentinel) :
    ((releaseN cfg N ⟨N, ⟨h⟩⟩ s).2.trace
        = s.trace ++ [Event.synchronize h, Event.destroyStream h])
    ∧ ((releaseN cfg N ⟨N, ⟨h⟩⟩ s).2.trace.count (Event.destroyStream h)
        = s.trace.count (Event.destroyStream h) + 1)
    ∧ ∀ k, k < N → (releaseN cfg k ⟨N, ⟨h⟩⟩ s).2 = s := by
  obtain ⟨n, rfl⟩ : ∃ n, N = n + 1 := ⟨N - 1, by omega⟩
  have htr : (releaseN cfg (n + 1) ⟨n + 1, ⟨h⟩⟩ s).2.trace
      = s.trace ++ [Event.synchronize h, Event.destroyStream h] := by
    rw [releaseN_full]
    exact destructor_trace cfg ⟨h⟩ s hne
  refine ⟨htr, ?_, ?_⟩
  · rw [htr]
    simp [List.count_append]
  · intro k hk
    obtain ⟨j, hj⟩ : ∃ j, n + 1 = k + j + 1 := ⟨n - k, by omega⟩
    rw [hj, releaseN_partial]

theorem shared_last_release_destroys_once_witness :
    ((releaseN cfgOk 3 ⟨3, ⟨2⟩⟩ initState).2.trace
        = [Event.synchronize 2, Event.destroyStream 2])
    ∧ (releaseN cfgOk 1 ⟨3, ⟨2⟩⟩ initState).2 = initState := by
  have hmain := shared_last_release_destroys_once cfgOk 3 2 initState
    (by decide) (by decide)
  exact ⟨by simpa [initState] using hmain.1, hmain.2.2 1 (by decide)⟩

/-- C3: the default constructor always succeeds (it is total), leaves
the native runtime untouched (no allocation recorded), and yields an
instance whose handle is the default sentinel, hence is_default. -/
theorem create_default_no_allocation (s : RTState) :
    (create_default s).2 = s
    ∧ is_default (create_default s).1 = true
    ∧ (get_stream (create_default s).1 s).1 = default_sentinel :=
  ⟨rfl, rfl, rfl⟩

/-- C4: destroying default-stream managers performs no native runtime
action at all: any number of successive destructor runs on a manager
with is_default = true leave the runtime state exactly unchanged, so
neither synchronize nor destroy-stream is recorded. -/
theorem default_destruction_no_native_action (cfg : NativeCfg)
    (m : stream_manager) (hdef : is_default m = true) (n : Nat) (s : RTState) :
    (destructor cfg m)^[n] s = s := by
  have hm : m._stream = default_sentinel := by
    simpa [is_default] using hdef
  induction n generalizing s with
  | zero => rfl
  | succ n0 ih =>
      rw [Function.iterate_succ_apply, destructor_default_id cfg m s hm]
      exact ih s

theorem default_destruction_no_native_action_witness :
    (destructor cfgOk ⟨0⟩)^[2] initState = initState :=
  default_destruction_no_native_action cfgOk ⟨0⟩ (by decide) 2 initState

/-- C5: any number of calls to the static default_stream accessor leave
the native runtime untouched (no allocate-stream or destroy-stream call
is ever recorded), and every returned shared handle reads the default
sentinel through get_stream. -/
theorem default_stream_accessor_no_native_calls (n : Nat) (s : RTState) :
    (callDefaultN n s).2 = s
    ∧ ((callDefaultN n s).1.map (fun p => (get_stream p.manager s).1)
        = List.replicate n default_sentinel) := by
  rw [callDefaultN_eq]
  exact ⟨rfl, by simp [get_stream]⟩

/-- C6: get_stream is a side-effect-free read of an immutable handle:
it never modifies the runtime state, its value is the `_stream` member
fixed at construction, and it returns the same value no matter the
runtime state at the time of the call (so every call during the
instance's lifetime agrees). -/
theorem get_stream_immutable (m : stream_manager) (s1 s2 : RTState) :
    (get_stream m s1).1 = m._stream
    ∧ (get_stream m s1).2 = s1
    ∧ (get_stream m s1).1 = (get_stream m s2).1 :=
  ⟨rfl, rfl, rfl⟩

/-- C7: when the native runtime cannot allocate a stream on device d,
create_on_device yields ResourceCreationError with the runtime state
exactly unchanged: no partial object exists, no retry is attempted, and
no destroy-stream call is ever recorded for the failed attempt. -/
theorem create_on_device_allocation_failure (cfg : NativeCfg) (d : Nat)
    (s : RTState) (hf : cfg.allocFails d = true) :
    create_on_device cfg d s
      = (Except.error StreamError.ResourceCreationError, s) := by
  simp [create_on_device, native_allocate, hf]

theorem create_on_device_allocation_failure_witness :
    create_on_device cfgFail7 7 initState
      = (Except.error StreamError.ResourceCreationError, initState) :=
  create_on_device_allocation_failure cfgFail7 7 initState (by decide)

/-- C8: when synchronize reports a runtime fault during destruction of
a non-default stream, the fault is routed to the out-of-band diagnostic
channel, destruction still completes with the destroy-stream call after
the synchronize (the resource is not leaked), and no error escapes the
destruction path (the destructor is total into RTState). -/
theorem destruction_fault_reported_and_destroyed (cfg : NativeCfg) (h : Nat)
    (s : RTState) (hne : h ≠ default_sentinel) (hf : cfg.syncFault h = true) :
    (destructor cfg ⟨h⟩ s).trace
        = s.trace ++ [Event.synchronize h, Event.destroyStream h]
    ∧ (destructor cfg ⟨h⟩ s).diagnostics = s.diagnostics ++ [h] := by
  refine ⟨destructor_trace cfg ⟨h⟩ s hne, ?_⟩
  rw [destructor_diagnostics cfg ⟨h⟩ s hne]
  simp [hf]

theorem destruction_fault_reported_and_destroyed_witness :
    (destructor cfgFault5 ⟨5⟩ initState).trace
        = [Event.synchronize 5, Event.destroyStream 5]
    ∧ (destructor cfgFault5 ⟨5⟩ initState).diagnostics = [5] := by
  have hmain := destruction_fault_reported_and_destroyed cfgFault5 5 initState
    (by decide) (by decide)
  exact ⟨by simpa [initState] using hmain.1, by simpa [initState] using hmain.2⟩

/-- C9: any two calls to default_stream are interchangeable: the
returned handles read equal get_stream values (the sentinel), each call
leaves the runtime untouched, and releasing either returned instance
(running its destructor) never records any native call, in particular
never a destroy against the real default queue. -/
theorem default_stream_calls_interchangeable (cfg : NativeCfg)
    (s1 s2 t : RTState) :
    (get_stream (default_stream s1).1.manager t).1
        = (get_stream (default_stream s2).1.manager t).1
    ∧ (default_stream s1).2 = s1
    ∧ destructor cfg (default_stream s1).1.manager t = t
    ∧ destructor cfg (default_stream s2).1.manager t = t := by
  refine ⟨rfl, rfl, ?_, ?_⟩ <;>
    exact destructor_default_id cfg ⟨default_sentinel⟩ t rfl

/-- C10: stream_manager is copied member-wise (the class deletes no
copy operations, so the implicit copy constructor applies): the copy
reads the same handle through get_stream, and destroying the original
and the copy each independently runs synchronize-then-destroy on the
same native handle, so the handle is destroyed twice — exclusive
ownership holds only when sharing goes through stream_ptr. -/
theorem copy_construct_duplicates_destruction (cfg : NativeCfg) (h : Nat)
    (s : RTState) (hne : h ≠ default_sentinel) :
    (get_stream (copy_construct ⟨h⟩) s).1 = (get_stream ⟨h⟩ s).1
    ∧ ((destructor cfg (copy_construct ⟨h⟩) (destructor cfg ⟨h⟩ s)).trace
        = s.trace ++ [Event.synchronize h, Event.destroyStream h,
            Event.synchronize h, Event.destroyStream h])
    ∧ ((destructor cfg (copy_construct ⟨h⟩)
          (destructor cfg ⟨h⟩ s)).trace.count (Event.destroyStream h)
        = s.trace.count (Event.destroyStream h) + 2) := by
  have hcopy : copy_construct ⟨h⟩ = (⟨h⟩ : stream_manager) := rfl
  have htr : (destructor cfg (copy_construct ⟨h⟩)
      (destructor cfg ⟨h⟩ s)).trace
      = s.trace ++ [Event.synchronize h, Event.destroyStream h,
          Event.synchronize h, Event.destroyStream h] := by
    rw [hcopy, destructor_trace cfg ⟨h⟩ _ hne, destructor_trace cfg ⟨h⟩ s hne]
    simp
  refine ⟨rfl, htr, ?_⟩
  rw [htr]
  simp [List.count_append]

theorem copy_construct_duplicates_destruction_witness :
    (destructor cfgOk (copy_construct ⟨3⟩) (destructor cfgOk ⟨3⟩ initState)).trace
      = [Event.synchronize 3, Event.destroyStream 3,
          Event.synchronize 3, Event.destroyStream 3] := by
  have hmain := copy_construct_duplicates_destruction cfgOk 3 initState (by decide)
  simpa [initState] using hmain.2.1

end StreamSpec
